import Mathlib

/-
  Shallow embedding of the DermaAI client (src/src/App.js, the active
  component starting at line 333).  The component holds five state
  variables (message, image, chatHistory, result, imageResult); the two
  response handlers and the two submit handlers are modelled as pure
  state-transition functions, with the network modelled as an oracle
  argument.  JavaScript truthiness on the optional wire fields is kept:
  a missing field and an empty string are both falsy, and a missing or
  zero confidence is falsy.
-/

namespace DermaAI

/-- A chatHistory entry: the tagged union written by setChatHistory.
    Text entries carry the user and bot strings; image entries carry the
    local object URL and the bot string. -/
inductive Entry where
  | text (user : String) (bot : String)
  | image (imageUrl : String) (bot : String)
  deriving DecidableEq

/-- The five useState variables of the App component, in source order:
    message, image (the selected file, as an opaque handle), chatHistory,
    result (text-channel verdict), imageResult (image-channel verdict). -/
structure AppState where
  message : String
  image : Option String
  chatHistory : List Entry
  result : String
  imageResult : String
  deriving DecidableEq

/-- Parsed JSON body returned by the /chat endpoint: optional fields
    response, error, confidence. -/
structure ChatData where
  response : Option String
  error : Option String
  confidence : Option ℚ
  deriving DecidableEq

/-- Parsed JSON body returned by the /predict_image endpoint: optional
    fields prediction, confidence. -/
structure ImageData where
  prediction : Option String
  confidence : Option ℚ
  deriving DecidableEq

/-- Outcome of the fetch-then-json sequence inside a try block.  throw
    covers everything the catch clause can receive: fetch rejecting
    (network unreachable) or res.json() throwing (body not parseable as
    JSON).  ok carries the HTTP status code together with the parsed
    body: fetch resolves normally for every received HTTP response,
    including non-2xx statuses, and the component never reads the
    status, so a non-2xx response with a JSON body reaches the success
    path. -/
inductive NetOutcome (α : Type) where
  | throw : NetOutcome α
  | ok (status : Nat) (data : α) : NetOutcome α

/-- JavaScript string coercion of a possibly-undefined field, as it
    occurs when the field is concatenated into a template literal. -/
def jsStr : Option String → String
  | some s => s
  | none => "undefined"

/-- JavaScript truthiness of an optional string field: undefined and
    the empty string are falsy. -/
def truthyS : Option String → Bool
  | some s => decide (s ≠ "")
  | none => false

/-- JavaScript truthiness of an optional numeric field: undefined and 0
    are falsy. -/
def truthyQ : Option ℚ → Bool
  | some q => decide (q ≠ 0)
  | none => false

/-- The comparison response.confidence < 70; on an absent field the
    JavaScript comparison with undefined is false. -/
def cmpLt70 : Option ℚ → Bool
  | some q => decide (q < 70)
  | none => false

/-- The guard of both response handlers:
    !response.confidence || response.confidence < 70. -/
def lowConfidence (c : Option ℚ) : Bool :=
  !truthyQ c || cmpLt70 c

/-- Number.prototype.toFixed(2) for the confidence values at hand
    (nonnegative): round half up to hundredths and print with exactly
    two digits after the decimal point.  The scaled value
    floor(q * 100 + 1 / 2) is computed on num and den directly, as the
    Euclidean division (200 * num + den) / (2 * den); the lemma
    toFixed2_scale_eq_floor below proves this equal to the floor. -/
def toFixed2 (q : ℚ) : String :=
  let np : ℕ := ((200 * q.num + (q.den : ℤ)) / (2 * (q.den : ℤ))).toNat
  toString (np / 100) ++ "." ++
    (if np % 100 < 10 then ("0") ++ toString (np % 100) else toString (np % 100))

/-- The fixed low-confidence wording of the text channel. -/
def chatDisclaimer : String :=
  "We couldn't confidently predict a disease based on your symptoms."

/-- The fixed low-confidence wording of the image channel. -/
def imageDisclaimer : String :=
  "We couldn't confidently diagnose the skin condition from the image."

/-- The fixed connectivity-failure message of both catch clauses. -/
def apiErrorMessage : String := "Error connecting to the API."

/-- The prompt issued by alert when no image is selected. -/
def uploadPrompt : String := "Please upload an image."

/-- handleChatResponse: sets result to the disclaimer when confidence is
    falsy or below 70, else to response.response concatenated with the
    formatted confidence.  In the else branch confidence is necessarily
    a present nonzero value, so the getD default is never reached. -/
def handleChatResponse (response : ChatData) (s : AppState) : AppState :=
  if lowConfidence response.confidence then
    { s with result := chatDisclaimer }
  else
    { s with result :=
        jsStr response.response ++ " (Confidence: " ++
          toFixed2 (response.confidence.getD 0) ++ "%)" }

/-- handleImagePrediction: same shape as handleChatResponse, writing
    imageResult from response.prediction. -/
def handleImagePrediction (response : ImageData) (s : AppState) : AppState :=
  if lowConfidence response.confidence then
    { s with imageResult := imageDisclaimer }
  else
    { s with imageResult :=
        jsStr response.prediction ++ " (Confidence: " ++
          toFixed2 (response.confidence.getD 0) ++ "%)" }

/-- handleSendMessage: on a parsed body with truthy response, run
    handleChatResponse and append a text entry (user is the pending
    message, bot is data.response); else on truthy error append the
    error entry; else nothing.  The catch clause appends the fixed
    connectivity entry.  setMessage of the empty string always runs
    last. -/
def handleSendMessage (net : NetOutcome ChatData) (s : AppState) : AppState :=
  let t :=
    match net with
    | NetOutcome.ok _ data =>
        if truthyS data.response then
          let s1 := handleChatResponse data s
          { s1 with chatHistory :=
              s1.chatHistory ++ [Entry.text s.message (jsStr data.response)] }
        else if truthyS data.error then
          { s with chatHistory :=
              s.chatHistory ++ [Entry.text ("Error") (jsStr data.error)] }
        else
          s
    | NetOutcome.throw =>
        { s with chatHistory :=
            s.chatHistory ++ [Entry.text ("Error") apiErrorMessage] }
  { t with message := "" }

/-- handleImageUpload: with no image selected it returns early with the
    alert prompt and no other effect (in particular setImage does not
    run and no request is sent: the result does not depend on the net
    oracle).  Otherwise, on a parsed body with truthy prediction, run
    handleImagePrediction and append an image entry carrying localUrl;
    on a body without prediction do nothing; the catch clause appends
    the fixed connectivity Text entry.  setImage(null) always runs last
    on this path.  The second component is the alert message, if any. -/
def handleImageUpload (net : NetOutcome ImageData) (localUrl : String)
    (s : AppState) : AppState × Option String :=
  match s.image with
  | none => (s, some uploadPrompt)
  | some _ =>
      let t :=
        match net with
        | NetOutcome.ok _ data =>
            if truthyS data.prediction then
              let s1 := handleImagePrediction data s
              { s1 with chatHistory :=
                  s1.chatHistory ++ [Entry.image localUrl (jsStr data.prediction)] }
            else
              s
        | NetOutcome.throw =>
            { s with chatHistory :=
                s.chatHistory ++ [Entry.text ("Error") apiErrorMessage] }
      ({ t with image := none }, none)

/-- The user-triggered operations that touch the transcript: a text
    submit or an image upload, each with its network oracle. -/
inductive Op where
  | send (net : NetOutcome ChatData)
  | upload (net : NetOutcome ImageData) (localUrl : String)

/-- One step of the session: route the operation to its handler. -/
def step : Op → AppState → AppState
  | Op.send net, s => handleSendMessage net s
  | Op.upload net url, s => (handleImageUpload net url s).1

/-- Run a sequence of operations from a state. -/
def run (ops : List Op) (s : AppState) : AppState :=
  List.foldl (fun t o => step o t) s ops

/-- The predicate of the spec: the confidence field is absent or its
    value is strictly below 70. -/
def lowConf (c : Option ℚ) : Prop :=
  c = none ∨ ∃ q : ℚ, c = some q ∧ q < 70

/-- The empty initial session state. -/
def initS : AppState := ⟨"", none, [], "", ""⟩

/-- A state whose pending text is the first quick prompt. -/
def sRed : AppState := ⟨"Red rash on arms", none, [], "", ""⟩

/-- A state with an image selected. -/
def sImg : AppState := ⟨"", some ("skin.png"), [], "", ""⟩

/-- The scaled integer inside toFixed2 is the floor of q * 100 + 1 / 2,
    that is, q rounded half up to a whole number of hundredths. -/
theorem toFixed2_scale_eq_floor (q : ℚ) :
    (200 * q.num + (q.den : ℤ)) / (2 * (q.den : ℤ)) = ⌊q * 100 + 1 / 2⌋ := by
  have hd : (q.den : ℚ) ≠ 0 := by exact_mod_cast q.den_pos.ne'
  have hq : (q.num : ℚ) = q * q.den := (div_eq_iff hd).mp (Rat.num_div_den q)
  have hcast : (((200 * q.num + (q.den : ℤ) : ℤ)) : ℚ) / (((2 * q.den : ℕ)) : ℚ)
      = q * 100 + 1 / 2 := by
    field_simp
    linear_combination (400 : ℚ) * hq
  have h := Rat.floor_intCast_div_natCast (200 * q.num + (q.den : ℤ)) (2 * q.den)
  rw [hcast] at h
  have h2 : ((2 * q.den : ℕ) : ℤ) = 2 * (q.den : ℤ) := by push_cast; ring
  rw [h2] at h
  exact h.symm

example : toFixed2 (Rat.divInt 171 2) = "85.50" := by decide
example : toFixed2 (40) = "40.00" := by decide
example : toFixed2 (90) = "90.00" := by decide
example : (handleChatResponse ⟨some ("Eczema"), none, some (Rat.divInt 171 2)⟩ sRed).result
    = "Eczema (Confidence: 85.50%)" := by decide

theorem lowConfidence_iff (c : Option ℚ) : lowConfidence c = true ↔ lowConf c := by
  cases c with
  | none => simp [lowConfidence, truthyQ, cmpLt70, lowConf]
  | some q =>
      simp only [lowConfidence, truthyQ, cmpLt70, lowConf, Bool.or_eq_true,
        Bool.not_eq_true', decide_eq_false_iff_not, not_not, decide_eq_true_eq,
        Option.some.injEq]
      constructor
      · rintro (rfl | h)
        · exact Or.inr ⟨0, rfl, by norm_num⟩
        · exact Or.inr ⟨q, rfl, h⟩
      · rintro (h | ⟨r, hr, hlt⟩)
        · cases h
        · cases hr
          exact Or.inr hlt

theorem append_pct_getLast (S : String) : (S ++ "%)").data.getLast? = some ')' := by
  have h : (S ++ "%)").data = S.data ++ ("%)").data := rfl
  rw [h, List.getLast?_append_of_ne_nil _ (by decide)]
  decide

theorem data_getLast_ne {a b : String} (h : a.data.getLast? ≠ b.data.getLast?) :
    a ≠ b :=
  fun e => h (by rw [e])

theorem fmt_ne_chatDisclaimer (S : String) : S ++ "%)" ≠ chatDisclaimer :=
  data_getLast_ne (by rw [append_pct_getLast]; decide)

theorem fmt_ne_imageDisclaimer (S : String) : S ++ "%)" ≠ imageDisclaimer :=
  data_getLast_ne (by rw [append_pct_getLast]; decide)

theorem handleChatResponse_chatHistory (d : ChatData) (s : AppState) :
    (handleChatResponse d s).chatHistory = s.chatHistory := by
  unfold handleChatResponse
  split <;> rfl

theorem handleImagePrediction_chatHistory (d : ImageData) (s : AppState) :
    (handleImagePrediction d s).chatHistory = s.chatHistory := by
  unfold handleImagePrediction
  split <;> rfl

/-- C1: for every response and either channel, the interpreter yields the
    channel-specific low-confidence disclaimer, never the formatted label
    verdict, exactly when the confidence field is absent or strictly below
    70, and a confidence of exactly 70 does not yield the disclaimer. -/
theorem disclaimer_iff_low_confidence :
    (∀ (dc : ChatData) (s : AppState),
        ((handleChatResponse dc s).result = chatDisclaimer ↔ lowConf dc.confidence))
    ∧ (∀ (di : ImageData) (s : AppState),
        ((handleImagePrediction di s).imageResult = imageDisclaimer ↔ lowConf di.confidence))
    ∧ (∀ (r e : Option String) (s : AppState),
        (handleChatResponse ⟨r, e, some 70⟩ s).result ≠ chatDisclaimer)
    ∧ (∀ (p : Option String) (s : AppState),
        (handleImagePrediction ⟨p, some 70⟩ s).imageResult ≠ imageDisclaimer) := by
  have hchat : ∀ (dc : ChatData) (s : AppState),
      ((handleChatResponse dc s).result = chatDisclaimer ↔ lowConf dc.confidence) := by
    intro dc s
    unfold handleChatResponse
    by_cases h : lowConfidence dc.confidence = true
    · rw [if_pos h]
      exact iff_of_true rfl ((lowConfidence_iff _).mp h)
    · rw [if_neg h]
      exact iff_of_false (fmt_ne_chatDisclaimer _)
        (fun hl => h ((lowConfidence_iff _).mpr hl))
  have himg : ∀ (di : ImageData) (s : AppState),
      ((handleImagePrediction di s).imageResult = imageDisclaimer ↔ lowConf di.confidence) := by
    intro di s
    unfold handleImagePrediction
    by_cases h : lowConfidence di.confidence = true
    · rw [if_pos h]
      exact iff_of_true rfl ((lowConfidence_iff _).mp h)
    · rw [if_neg h]
      exact iff_of_false (fmt_ne_imageDisclaimer _)
        (fun hl => h ((lowConfidence_iff _).mpr hl))
  refine ⟨hchat, himg, fun r e s => ?_, fun p s => ?_⟩
  · intro hd
    have := (hchat ⟨r, e, some 70⟩ s).mp hd
    simp only [lowConf] at this
    rcases this with h | ⟨q, hq, hlt⟩
    · cases h
    · cases hq
      exact absurd hlt (by norm_num)
  · intro hd
    have := (himg ⟨p, some 70⟩ s).mp hd
    simp only [lowConf] at this
    rcases this with h | ⟨q, hq, hlt⟩
    · cases h
    · cases hq
      exact absurd hlt (by norm_num)

/-- C2: for every response whose confidence is present and at least 70 and
    whose label is present, either interpreter returns the label, a space,
    and the parenthesized two-decimal confidence annotation; in particular
    label Eczema with confidence 85.5 yields Eczema (Confidence: 85.50%). -/
theorem verdict_format_high_confidence :
    (∀ (dc : ChatData) (s : AppState) (q : ℚ) (l : String),
        dc.confidence = some q → 70 ≤ q → dc.response = some l →
        (handleChatResponse dc s).result = l ++ " (Confidence: " ++ toFixed2 q ++ "%)")
    ∧ (∀ (di : ImageData) (s : AppState) (q : ℚ) (l : String),
        di.confidence = some q → 70 ≤ q → di.prediction = some l →
        (handleImagePrediction di s).imageResult = l ++ " (Confidence: " ++ toFixed2 q ++ "%)")
    ∧ (∀ s : AppState,
        (handleChatResponse ⟨some ("Eczema"), none, some (Rat.divInt 171 2)⟩ s).result
          = "Eczema (Confidence: 85.50%)") := by
  have hlow : ∀ q : ℚ, 70 ≤ q → lowConfidence (some q) = false := by
    intro q h2
    have h0 : q ≠ 0 := ne_of_gt (lt_of_lt_of_le (by norm_num) h2)
    have hn : ¬(q < 70) := not_lt.mpr h2
    simp [lowConfidence, truthyQ, cmpLt70, h0, hn]
  refine ⟨?_, ?_, ?_⟩
  · rintro ⟨r, e, c⟩ s q l h1 h2 h3
    cases h1
    cases h3
    unfold handleChatResponse
    rw [if_neg (by rw [hlow q h2]; exact Bool.false_ne_true)]
    rfl
  · rintro ⟨p, c⟩ s q l h1 h2 h3
    cases h1
    cases h3
    unfold handleImagePrediction
    rw [if_neg (by rw [hlow q h2]; exact Bool.false_ne_true)]
    rfl
  · intro s
    unfold handleChatResponse
    rw [if_neg (by decide)]
    show "Eczema" ++ " (Confidence: " ++ toFixed2 ((some (Rat.divInt 171 2)).getD 0) ++ "%)"
        = "Eczema (Confidence: 85.50%)"
    decide

/-- Concrete application of verdict_format_high_confidence at confidence 90
    on the text channel and 85.5 on the image channel. -/
theorem verdict_format_high_confidence_witness :
    (handleChatResponse ⟨some ("X"), none, some (90 : ℚ)⟩ initS).result
        = "X" ++ " (Confidence: " ++ toFixed2 (90 : ℚ) ++ "%)"
    ∧ (handleImagePrediction ⟨some ("Y"), some (90 : ℚ)⟩ initS).imageResult
        = "Y" ++ " (Confidence: " ++ toFixed2 (90 : ℚ) ++ "%)" :=
  ⟨verdict_format_high_confidence.1 ⟨some ("X"), none, some (90 : ℚ)⟩ initS 90 ("X")
      rfl (by norm_num) rfl,
   verdict_format_high_confidence.2.1 ⟨some ("Y"), some (90 : ℚ)⟩ initS 90 ("Y")
      rfl (by norm_num) rfl⟩

theorem step_tail (op : Op) (s : AppState) :
    ∃ tail : List Entry, (step op s).chatHistory = s.chatHistory ++ tail ∧ tail.length ≤ 1 := by
  cases op with
  | send net =>
      cases net with
      | throw =>
          exact ⟨[Entry.text ("Error") apiErrorMessage], rfl, by decide⟩
      | ok st data =>
          by_cases h1 : truthyS data.response = true
          · refine ⟨[Entry.text s.message (jsStr data.response)], ?_, by simp⟩
            simp only [step, handleSendMessage, if_pos h1]
            exact congrArg
              (fun l => l ++ [Entry.text s.message (jsStr data.response)])
              (handleChatResponse_chatHistory data s)
          · by_cases h2 : truthyS data.error = true
            · refine ⟨[Entry.text ("Error") (jsStr data.error)], ?_, by simp⟩
              simp only [step, handleSendMessage, if_neg h1, if_pos h2]
            · refine ⟨[], ?_, by simp⟩
              simp only [step, handleSendMessage, if_neg h1, if_neg h2, List.append_nil]
  | upload net url =>
      obtain ⟨m, i, ch, r, ir⟩ := s
      cases i with
      | none =>
          refine ⟨[], ?_, by simp⟩
          simp only [step, handleImageUpload, List.append_nil]
      | some img =>
          cases net with
          | throw =>
              exact ⟨[Entry.text ("Error") apiErrorMessage], rfl, by decide⟩
          | ok st data =>
              by_cases h1 : truthyS data.prediction = true
              · refine ⟨[Entry.image url (jsStr data.prediction)], ?_, by simp⟩
                simp only [step, handleImageUpload, if_pos h1]
                exact congrArg
                  (fun l => l ++ [Entry.image url (jsStr data.prediction)])
                  (handleImagePrediction_chatHistory data ⟨m, some img, ch, r, ir⟩)
              · refine ⟨[], ?_, by simp⟩
                simp only [step, handleImageUpload, if_neg h1, List.append_nil]

/-- C3: the transcript is append-only: every single operation appends at
    most one entry at the end and keeps the existing entries unchanged in
    place, and over any sequence of operations the initial transcript stays
    an unchanged prefix, so its length never decreases. -/
theorem transcript_append_only :
    (∀ (op : Op) (s : AppState), ∃ tail : List Entry,
        (step op s).chatHistory = s.chatHistory ++ tail ∧ tail.length ≤ 1)
    ∧ (∀ (ops : List Op) (s : AppState), ∃ tail : List Entry,
        (run ops s).chatHistory = s.chatHistory ++ tail) := by
  refine ⟨step_tail, ?_⟩
  intro ops
  induction ops with
  | nil =>
      intro s
      exact ⟨[], by simp [run]⟩
  | cons o os ih =>
      intro s
      obtain ⟨t1, h1, _⟩ := step_tail o s
      obtain ⟨t2, h2⟩ := ih (step o s)
      refine ⟨t1 ++ t2, ?_⟩
      have hrun : run (o :: os) s = run os (step o s) := rfl
      rw [hrun, h2, h1, List.append_assoc]

/-- C4: submitting the text message Red rash on arms with service response
    response Eczema, confidence 85.5 appends exactly one Text entry with
    that user text and bot text Eczema, sets the text verdict to
    Eczema (Confidence: 85.50%), and clears the pending text input. -/
theorem send_success_eczema (s : AppState) (st : Nat)
    (h : s.message = "Red rash on arms") :
    handleSendMessage (NetOutcome.ok st ⟨some ("Eczema"), none, some (Rat.divInt 171 2)⟩) s =
      { s with message := "",
               chatHistory := s.chatHistory ++ [Entry.text ("Red rash on arms") ("Eczema")],
               result := "Eczema (Confidence: 85.50%)" } := by
  obtain ⟨m, i, ch, r, ir⟩ := s
  replace h : m = "Red rash on arms" := h
  subst h
  rfl

/-- Concrete application of send_success_eczema from the state holding the
    first quick prompt. -/
theorem send_success_eczema_witness :
    handleSendMessage (NetOutcome.ok 200 ⟨some ("Eczema"), none, some (Rat.divInt 171 2)⟩) sRed =
      { sRed with message := "",
                  chatHistory := sRed.chatHistory ++ [Entry.text ("Red rash on arms") ("Eczema")],
                  result := "Eczema (Confidence: 85.50%)" } :=
  send_success_eczema sRed 200 rfl

/-- C5: a text submit whose request throws appends exactly one Text entry
    with user text Error and the fixed connectivity message, leaves the
    text verdict untouched, and clears the pending text input. -/
theorem send_transport_failure (s : AppState) :
    handleSendMessage NetOutcome.throw s =
      { s with message := "",
               chatHistory := s.chatHistory ++ [Entry.text ("Error") apiErrorMessage] } := by
  obtain ⟨m, i, ch, r, ir⟩ := s
  rfl

/-- A service response whose error field is present but empty appends
    nothing: the claim as stated fails at errorMessage equal to the empty
    string, because the code tests the field with JavaScript truthiness. -/
theorem send_empty_error_counterexample :
    ¬ ((handleSendMessage (NetOutcome.ok 200 ⟨none, some (""), none⟩) initS).chatHistory
        = initS.chatHistory ++ [Entry.text ("Error") ("")]) := by
  decide

/-- C6 amended: for every text submit whose response carries a nonempty
    errorMessage and no label, exactly one Text entry is appended with
    user text Error and bot text the error message verbatim, the text
    verdict is not updated, and the pending text input is cleared. -/
theorem send_service_error (s : AppState) (st : Nat) (c : Option ℚ) (e : String)
    (he : e ≠ "") :
    handleSendMessage (NetOutcome.ok st ⟨none, some e, c⟩) s =
      { s with message := "",
               chatHistory := s.chatHistory ++ [Entry.text ("Error") e] } := by
  obtain ⟨m, i, ch, r, ir⟩ := s
  simp only [handleSendMessage, truthyS, jsStr]
  simp [he]

/-- Concrete application of send_service_error at a nonempty error. -/
theorem send_service_error_witness :
    handleSendMessage (NetOutcome.ok 200 ⟨none, some ("boom"), none⟩) initS =
      { initS with message := "",
                   chatHistory := initS.chatHistory ++ [Entry.text ("Error") ("boom")] } :=
  send_service_error initS 200 none ("boom") (by decide)

/-- C7: an upload with no image selected changes nothing, appends nothing,
    issues the missing-input prompt, and does not depend on the network
    oracle at all, so no request is observable. -/
theorem upload_missing_image (net : NetOutcome ImageData) (url : String)
    (s : AppState) (h : s.image = none) :
    handleImageUpload net url s = (s, some uploadPrompt) := by
  obtain ⟨m, i, ch, r, ir⟩ := s
  replace h : i = none := h
  subst h
  cases net <;> rfl

/-- Concrete application of upload_missing_image on the empty state. -/
theorem upload_missing_image_witness :
    handleImageUpload NetOutcome.throw ("u") initS = (initS, some uploadPrompt) :=
  upload_missing_image NetOutcome.throw ("u") initS rfl

/-- A response whose prediction field is present but empty appends no
    entry and leaves the image verdict untouched, although the field is
    contained in the response: the claim as stated fails at
    prediction = "", because the code tests the field with JavaScript
    truthiness. -/
theorem upload_empty_prediction_counterexample :
    handleImageUpload (NetOutcome.ok 200 ⟨some (""), some (90 : ℚ)⟩) ("u") sImg
        = ({ sImg with image := none }, none)
    ∧ ¬ ((handleImageUpload (NetOutcome.ok 200 ⟨some (""), some (90 : ℚ)⟩) ("u") sImg).1.chatHistory
        = sImg.chatHistory ++ [Entry.image ("u") ("")]) := by
  constructor
  · rfl
  · decide

/-- C8 amended: an upload whose response carries a nonempty prediction runs the
    image interpreter into the image verdict and appends exactly one Image
    entry with the local url and bot text the prediction; in particular
    prediction Psoriasis with confidence 40 appends that Image entry and
    sets the image verdict to the image disclaimer. -/
theorem upload_prediction_success :
    (∀ (s : AppState) (st : Nat) (url img p : String) (d : ImageData),
        s.image = some img → d.prediction = some p → p ≠ "" →
        handleImageUpload (NetOutcome.ok st d) url s =
          ({ s with image := none,
                    imageResult := (handleImagePrediction d s).imageResult,
                    chatHistory := s.chatHistory ++ [Entry.image url p] }, none))
    ∧ (∀ (s : AppState) (st : Nat) (url img : String),
        s.image = some img →
        handleImageUpload (NetOutcome.ok st ⟨some ("Psoriasis"), some (40 : ℚ)⟩) url s =
          ({ s with image := none,
                    imageResult := imageDisclaimer,
                    chatHistory := s.chatHistory ++ [Entry.image url ("Psoriasis")] }, none)) := by
  constructor
  · intro s st url img p d h hp hne
    obtain ⟨m, i, ch, r, ir⟩ := s
    obtain ⟨pr, c⟩ := d
    replace h : i = some img := h
    replace hp : pr = some p := hp
    subst h
    subst hp
    have htr : truthyS (some p) = true := by simp [truthyS, hne]
    simp only [handleImageUpload, handleImagePrediction, if_pos htr]
    by_cases hl : lowConfidence c = true
    · simp only [if_pos hl]
      rfl
    · simp only [if_neg hl]
      rfl
  · intro s st url img h
    obtain ⟨m, i, ch, r, ir⟩ := s
    replace h : i = some img := h
    subst h
    rfl

/-- Concrete applications of upload_prediction_success: the general branch
    at confidence 90 and the Psoriasis at confidence 40 instance. -/
theorem upload_prediction_success_witness :
    handleImageUpload (NetOutcome.ok 200 ⟨some ("P"), some (90 : ℚ)⟩) ("u") sImg =
      ({ sImg with image := none,
                   imageResult :=
                     (handleImagePrediction ⟨some ("P"), some (90 : ℚ)⟩ sImg).imageResult,
                   chatHistory := sImg.chatHistory ++ [Entry.image ("u") ("P")] }, none)
    ∧ handleImageUpload (NetOutcome.ok 200 ⟨some ("Psoriasis"), some (40 : ℚ)⟩) ("u") sImg =
      ({ sImg with image := none,
                   imageResult := imageDisclaimer,
                   chatHistory := sImg.chatHistory ++ [Entry.image ("u") ("Psoriasis")] }, none) :=
  ⟨upload_prediction_success.1 sImg 200 ("u") ("skin.png") ("P")
      ⟨some ("P"), some (90 : ℚ)⟩ rfl rfl (by decide),
   upload_prediction_success.2 sImg 200 ("u") ("skin.png") rfl⟩

/-- A non-2xx HTTP response whose body parses as JSON is not surfaced as a
    transport failure: at status 500 with body response Eczema, confidence
    90, the appended entry is the ordinary success entry, not the
    connectivity-failure entry the claim requires. -/
theorem non2xx_transport_counterexample :
    (handleSendMessage (NetOutcome.ok 500 ⟨some ("Eczema"), none, some (90 : ℚ)⟩) sRed).chatHistory
        = sRed.chatHistory ++ [Entry.text ("Red rash on arms") ("Eczema")]
    ∧ ¬ ((handleSendMessage (NetOutcome.ok 500 ⟨some ("Eczema"), none, some (90 : ℚ)⟩) sRed).chatHistory
        = sRed.chatHistory ++ [Entry.text ("Error") apiErrorMessage]) := by
  constructor
  · decide
  · decide

/-- C9 amended: every thrown transport failure (network unreachable or a
    body that fails JSON parsing) is surfaced on both channels as a
    Text-kind entry with user text Error and the same fixed connectivity
    message, leaking no detail; a non-2xx response with a parseable JSON
    body is instead processed like a success response. -/
theorem transport_throw_generic_message :
    (∀ s : AppState, handleSendMessage NetOutcome.throw s =
        { s with message := "",
                 chatHistory := s.chatHistory ++ [Entry.text ("Error") apiErrorMessage] })
    ∧ (∀ (s : AppState) (url img : String), s.image = some img →
        handleImageUpload NetOutcome.throw url s =
          ({ s with image := none,
                    chatHistory := s.chatHistory ++ [Entry.text ("Error") apiErrorMessage] }, none)) := by
  constructor
  · intro s
    obtain ⟨m, i, ch, r, ir⟩ := s
    rfl
  · intro s url img h
    obtain ⟨m, i, ch, r, ir⟩ := s
    replace h : i = some img := h
    subst h
    rfl

/-- Concrete application of transport_throw_generic_message on the image
    channel with an image selected. -/
theorem transport_throw_generic_message_witness :
    handleImageUpload NetOutcome.throw ("u") sImg =
      ({ sImg with image := none,
                   chatHistory := sImg.chatHistory ++ [Entry.text ("Error") apiErrorMessage] }, none) :=
  transport_throw_generic_message.2 sImg ("u") ("skin.png") rfl

/-- C10: a transport-level success lacking the expected label field (an
    image body without prediction, or a text body with neither response
    nor error) appends nothing and updates no verdict, yet still clears
    the channel's pending input slot. -/
theorem missing_label_silent_noop :
    (∀ (s : AppState) (st : Nat) (c : Option ℚ),
        handleSendMessage (NetOutcome.ok st ⟨none, none, c⟩) s = { s with message := "" })
    ∧ (∀ (s : AppState) (st : Nat) (url img : String) (c : Option ℚ),
        s.image = some img →
        handleImageUpload (NetOutcome.ok st ⟨none, c⟩) url s =
          ({ s with image := none }, none)) := by
  constructor
  · intro s st c
    obtain ⟨m, i, ch, r, ir⟩ := s
    rfl
  · intro s st url img c h
    obtain ⟨m, i, ch, r, ir⟩ := s
    replace h : i = some img := h
    subst h
    rfl

/-- Concrete applications of missing_label_silent_noop on both channels. -/
theorem missing_label_silent_noop_witness :
    handleSendMessage (NetOutcome.ok 200 ⟨none, none, some (90 : ℚ)⟩) sRed
        = { sRed with message := "" }
    ∧ handleImageUpload (NetOutcome.ok 200 ⟨none, some (90 : ℚ)⟩) ("u") sImg
        = ({ sImg with image := none }, none) :=
  ⟨missing_label_silent_noop.1 sRed 200 (some (90 : ℚ)),
   missing_label_silent_noop.2 sImg 200 ("u") ("skin.png") (some (90 : ℚ)) rfl⟩

end DermaAI
